import Mathlib

/-
Shallow embedding of src/web/src/app/admin/personas/lib.ts.

The file orchestrates HTTP calls through fetch. We model the network as an
environment function from requests to responses; each operation is embedded
as a function that returns the ordered list of requests it issued together
with the values the TypeScript function returns. A JavaScript rejection
that escapes the function (the JSON body of a response failing to parse
when .json() is awaited) is modelled as the Except.error case, carrying
the requests issued before the rejection.

JavaScript values relevant to the id plumbing (a parsed id, null,
undefined) are modelled by JsVal, since the code distinguishes
promptId !== null from truthiness of promptId.
-/

namespace PersonaLib

/-- A JavaScript value as it can appear in the promptId variable:
the number read from a JSON body id field, null, or undefined
(the result of reading a missing field). -/
inductive JsVal where
  | undef
  | jsNull
  | num (n : Int)
deriving DecidableEq, Repr

/-- JavaScript truthiness restricted to the values promptId can take:
numbers are truthy unless 0; null and undefined are falsy. -/
def JsVal.truthy : JsVal → Bool
  | .num n => n != 0
  | _ => false

/-- A parsed JSON response body, as the code consumes it: the only access
performed is reading the id property, so we record the value that access
yields (JsVal.undef when the field is missing). -/
structure JsonBody where
  idVal : JsVal
deriving DecidableEq, Repr

/-- A fetch Response as the code observes it: the ok flag, and the result
of awaiting .json() on it — none models a body that fails to parse as
JSON, in which case awaiting .json() rejects. -/
structure Response where
  ok : Bool
  json? : Option JsonBody
deriving DecidableEq, Repr

/-- HTTP method of a fetch call. -/
inductive Method where
  | GET
  | POST
  | PATCH
  | DELETE
deriving DecidableEq, Repr

/-- The JSON body sent to /api/prompt (POST) and /api/prompt/id (PATCH),
as built inline in createPrompt and updatePrompt. -/
structure PromptBody where
  name : String
  description : String
  shared : Bool
  system_prompt : String
  task_prompt : String
deriving DecidableEq, Repr

/-- The JSON body sent to the persona endpoints, as built by
buildPersonaAPIBody. prompt_ids holds JsVal because the runtime value
placed there is whatever promptId holds (possibly undefined). -/
structure PersonaAPIBody where
  name : String
  description : String
  shared : Bool
  num_chunks : Option Int
  llm_relevance_filter : Option Bool
  llm_filter_extraction : Bool
  recency_bias : String
  prompt_ids : List JsVal
  document_set_ids : List Int
  llm_model_version_override : Option String
deriving DecidableEq, Repr

/-- The body of an issued request, when present. -/
inductive RequestBody where
  | promptB (b : PromptBody)
  | personaB (b : PersonaAPIBody)
deriving DecidableEq, Repr

/-- An HTTP request as issued by fetch in this file: method, URL path
(query string included), whether the Content-Type application/json header
was set, and the JSON body when one was sent. -/
structure HttpRequest where
  method : Method
  path : String
  jsonContentType : Bool
  body? : Option RequestBody
deriving DecidableEq, Repr

/-- The network: what response each request receives. The two calls of an
operation are distinct requests, so a function models the sequential
await chain faithfully. -/
def Env : Type := HttpRequest → Response

/-- Mirror of the TypeScript interface PersonaCreationRequest. -/
structure PersonaCreationRequest where
  name : String
  description : String
  system_prompt : String
  task_prompt : String
  document_set_ids : List Int
  num_chunks : Option Int
  llm_relevance_filter : Option Bool
  llm_model_version_override : Option String
deriving DecidableEq, Repr

/-- Mirror of the TypeScript interface PersonaUpdateRequest. -/
structure PersonaUpdateRequest where
  id : Int
  existingPromptId : Option Int
  name : String
  description : String
  system_prompt : String
  task_prompt : String
  document_set_ids : List Int
  num_chunks : Option Int
  llm_relevance_filter : Option Bool
  llm_model_version_override : Option String
deriving DecidableEq, Repr

/-- The common fields of a PersonaUpdateRequest, viewed as a
PersonaCreationRequest; buildPersonaAPIBody in the source takes the union
type and reads only these fields. -/
def PersonaUpdateRequest.toCreationRequest (r : PersonaUpdateRequest) :
    PersonaCreationRequest :=
  { name := r.name
  , description := r.description
  , system_prompt := r.system_prompt
  , task_prompt := r.task_prompt
  , document_set_ids := r.document_set_ids
  , num_chunks := r.num_chunks
  , llm_relevance_filter := r.llm_relevance_filter
  , llm_model_version_override := r.llm_model_version_override }

/-- promptNameFromPersonaName from the source. -/
def promptNameFromPersonaName (personaName : String) : String :=
  "default-prompt__" ++ personaName

/-- The prompt body literal shared verbatim by createPrompt and
updatePrompt in the source. -/
def promptBodyFor (personaName systemPrompt taskPrompt : String) : PromptBody :=
  { name := promptNameFromPersonaName personaName
  , description := "Default prompt for persona " ++ personaName
  , shared := true
  , system_prompt := systemPrompt
  , task_prompt := taskPrompt }

/-- The request issued by createPrompt: POST /api/prompt with the derived
prompt body. -/
def createPromptRequest (personaName systemPrompt taskPrompt : String) :
    HttpRequest :=
  { method := .POST
  , path := "/api/prompt"
  , jsonContentType := true
  , body? := some (.promptB (promptBodyFor personaName systemPrompt taskPrompt)) }

/-- The request issued by updatePrompt: PATCH /api/prompt/promptId with
the derived prompt body. -/
def updatePromptRequest (promptId : Int)
    (personaName systemPrompt taskPrompt : String) : HttpRequest :=
  { method := .PATCH
  , path := "/api/prompt/" ++ toString promptId
  , jsonContentType := true
  , body? := some (.promptB (promptBodyFor personaName systemPrompt taskPrompt)) }

/-- buildPersonaAPIBody from the source. -/
def buildPersonaAPIBody (creationRequest : PersonaCreationRequest)
    (promptId : JsVal) : PersonaAPIBody :=
  { name := creationRequest.name
  , description := creationRequest.description
  , shared := true
  , num_chunks := creationRequest.num_chunks
  , llm_relevance_filter := creationRequest.llm_relevance_filter
  , llm_filter_extraction := false
  , recency_bias := "base_decay"
  , prompt_ids := [promptId]
  , document_set_ids := creationRequest.document_set_ids
  , llm_model_version_override := creationRequest.llm_model_version_override }

/-- The persona-create request issued inside createPersona:
POST /api/admin/persona with the built persona body. -/
def createPersonaRequest (r : PersonaCreationRequest) (promptId : JsVal) :
    HttpRequest :=
  { method := .POST
  , path := "/api/admin/persona"
  , jsonContentType := true
  , body? := some (.personaB (buildPersonaAPIBody r promptId)) }

/-- The persona-update request issued inside updatePersona:
PATCH /api/admin/persona/id with the built persona body. -/
def updatePersonaRequest (r : PersonaUpdateRequest) (promptId : JsVal) :
    HttpRequest :=
  { method := .PATCH
  , path := "/api/admin/persona/" ++ toString r.id
  , jsonContentType := true
  , body? := some (.personaB (buildPersonaAPIBody r.toCreationRequest promptId)) }

/-- Result of running a two-step operation: either an escaped rejection
(error, carrying the requests issued before it) or the list of issued
requests together with the returned pair
[promptResponse, personaResponseOrNull]. -/
def RunResult : Type :=
  Except (List HttpRequest) (List HttpRequest × Response × Option Response)

instance {ε α : Type} [DecidableEq ε] [DecidableEq α] :
    DecidableEq (Except ε α)
  | .error e, .error f => decidable_of_iff (e = f) (by simp)
  | .error _, .ok _ => .isFalse (fun h => Except.noConfusion h)
  | .ok _, .error _ => .isFalse (fun h => Except.noConfusion h)
  | .ok x, .ok y => decidable_of_iff (x = y) (by simp)

instance : DecidableEq RunResult := by
  unfold RunResult
  infer_instance

/-- The requests an operation issued, whether or not it returned. -/
def runTrace : RunResult → List HttpRequest
  | .error t => t
  | .ok r => r.1

/-- The prompt id value computed by createPersona (and by the
create branch of updatePersona): the id field of the parsed JSON body
when the response is ok (none models the rejection of .json() on an
unparseable body), null otherwise. -/
def promptIdOf (promptResponse : Response) : Option JsVal :=
  if promptResponse.ok then Option.map JsonBody.idVal promptResponse.json?
  else some JsVal.jsNull

/-- createPersona from the source. -/
def createPersona (personaCreationRequest : PersonaCreationRequest)
    (env : Env) : RunResult :=
  let promptReq := createPromptRequest personaCreationRequest.name
      personaCreationRequest.system_prompt personaCreationRequest.task_prompt
  let createPromptResponse := env promptReq
  match promptIdOf createPromptResponse with
  | none => .error [promptReq]
  | some promptId =>
    if promptId != JsVal.jsNull then
      let personaReq := createPersonaRequest personaCreationRequest promptId
      .ok ([promptReq, personaReq], createPromptResponse, some (env personaReq))
    else
      .ok ([promptReq], createPromptResponse, none)

/-- The prompt step of updatePersona: the request issued, its response,
and the promptId variable after the branch (none models a rejection of
.json()). With existingPromptId present the PATCH is issued and
promptId = existingPromptId unconditionally; otherwise the POST is issued
and promptId is the parsed id when ok, null when not. -/
def updatePromptStep (personaUpdateRequest : PersonaUpdateRequest)
    (env : Env) : HttpRequest × Response × Option JsVal :=
  match personaUpdateRequest.existingPromptId with
  | some existingPromptId =>
    let promptReq := updatePromptRequest existingPromptId
        personaUpdateRequest.name personaUpdateRequest.system_prompt
        personaUpdateRequest.task_prompt
    (promptReq, env promptReq, some (JsVal.num existingPromptId))
  | none =>
    let promptReq := createPromptRequest personaUpdateRequest.name
        personaUpdateRequest.system_prompt personaUpdateRequest.task_prompt
    let promptResponse := env promptReq
    (promptReq, promptResponse, promptIdOf promptResponse)

/-- updatePersona from the source. -/
def updatePersona (personaUpdateRequest : PersonaUpdateRequest)
    (env : Env) : RunResult :=
  match updatePromptStep personaUpdateRequest env with
  | (promptReq, _, none) => .error [promptReq]
  | (promptReq, promptResponse, some promptId) =>
    if promptResponse.ok && promptId.truthy then
      let personaReq := updatePersonaRequest personaUpdateRequest promptId
      .ok ([promptReq, personaReq], promptResponse, some (env personaReq))
    else
      .ok ([promptReq], promptResponse, none)

/-- The request issued by deletePersona: DELETE /api/admin/persona/id,
no headers set, no body. -/
def deletePersonaRequest (personaId : Int) : HttpRequest :=
  { method := .DELETE
  , path := "/api/admin/persona/" ++ toString personaId
  , jsonContentType := false
  , body? := none }

/-- deletePersona from the source: issues the single DELETE and returns
the response unmodified. -/
def deletePersona (personaId : Int) (env : Env) :
    List HttpRequest × Response :=
  let req := deletePersonaRequest personaId
  ([req], env req)

/-- Is the code point one ECMAScript encodeURIComponent leaves unescaped:
ASCII letters, digits, and - _ . ! ~ * apostrophe ( ). -/
def uriUnescapedCode (n : Nat) : Bool :=
  (65 ≤ n && n ≤ 90) || (97 ≤ n && n ≤ 122) || (48 ≤ n && n ≤ 57) ||
  n == 45 || n == 95 || n == 46 || n == 33 || n == 126 || n == 42 ||
  n == 39 || n == 40 || n == 41

/-- Uppercase hexadecimal digit for n < 16. -/
def hexDigit (n : Nat) : Char :=
  if n < 10 then Char.ofNat (48 + n) else Char.ofNat (55 + n)

/-- Percent-escape of one byte, uppercase hex. -/
def percentByte (b : Nat) : String :=
  String.mk [Char.ofNat 37, hexDigit (b / 16), hexDigit (b % 16)]

/-- UTF-8 bytes of a code point. -/
def utf8Bytes (n : Nat) : List Nat :=
  if n < 128 then [n]
  else if n < 2048 then [192 + n / 64, 128 + n % 64]
  else if n < 65536 then [224 + n / 4096, 128 + (n / 64) % 64, 128 + n % 64]
  else [240 + n / 262144, 128 + (n / 4096) % 64, 128 + (n / 64) % 64,
        128 + n % 64]

/-- encodeURIComponent on one character. -/
def encodeChar (c : Char) : String :=
  if uriUnescapedCode c.toNat then String.singleton c
  else String.join (List.map percentByte (utf8Bytes c.toNat))

/-- ECMAScript encodeURIComponent on a string. -/
def encodeURIComponent (s : String) : String :=
  String.join (List.map encodeChar s.data)

/-- The query string built by buildFinalPrompt: Object.entries of the
three-key object literal in insertion order, each key and value passed
through encodeURIComponent, pairs joined with &. A boolean value is
stringified by encodeURIComponent to true or false. -/
def buildFinalPromptQuery (systemPrompt taskPrompt : String)
    (retrievalDisabled : Bool) : String :=
  String.intercalate "&"
    (List.map
      (fun kv => encodeURIComponent kv.1 ++ "=" ++ encodeURIComponent kv.2)
      [("system_prompt", systemPrompt),
       ("task_prompt", taskPrompt),
       ("retrieval_disabled", if retrievalDisabled then "true" else "false")])

/-- The GET request issued by buildFinalPrompt. -/
def buildFinalPromptRequest (systemPrompt taskPrompt : String)
    (retrievalDisabled : Bool) : HttpRequest :=
  { method := .GET
  , path := "/api/persona/utils/prompt-explorer?" ++
      buildFinalPromptQuery systemPrompt taskPrompt retrievalDisabled
  , jsonContentType := false
  , body? := none }

/-- buildFinalPrompt from the source: builds the query string, issues the
GET, returns the raw response. -/
def buildFinalPrompt (systemPrompt taskPrompt : String)
    (retrievalDisabled : Bool) (env : Env) : List HttpRequest × Response :=
  let req := buildFinalPromptRequest systemPrompt taskPrompt retrievalDisabled
  ([req], env req)

/-- A concrete creation request used to instantiate theorems. -/
def reqA : PersonaCreationRequest :=
  { name := "a", description := "d", system_prompt := "s", task_prompt := "t"
  , document_set_ids := [3], num_chunks := none
  , llm_relevance_filter := none, llm_model_version_override := none }

/-- A concrete update request with no existing prompt id. -/
def ureqNone : PersonaUpdateRequest :=
  { id := 10, existingPromptId := none
  , name := "a", description := "d", system_prompt := "s", task_prompt := "t"
  , document_set_ids := [], num_chunks := none
  , llm_relevance_filter := none, llm_model_version_override := none }

/-- A concrete update request with existing prompt id 42. -/
def ureq42 : PersonaUpdateRequest :=
  { ureqNone with existingPromptId := some 42 }

/-- A concrete update request with existing prompt id 0. -/
def ureq0 : PersonaUpdateRequest :=
  { ureqNone with existingPromptId := some 0 }

/-- An environment answering every request with ok and a JSON body whose
id property reads as the given value. -/
def envOkId (v : JsVal) : Env :=
  fun _ => { ok := true, json? := some { idVal := v } }

/-- An environment answering every request with a non-2xx response. -/
def envFailResp : Env :=
  fun _ => { ok := false, json? := none }

/-- An environment answering every request with ok but a body that fails
to parse as JSON. -/
def envOkNoJson : Env :=
  fun _ => { ok := true, json? := none }

theorem intercalate_amp_three (a b c : String) :
    String.intercalate "&" [a, b, c] = a ++ "&" ++ b ++ "&" ++ c := by
  simp [String.intercalate, String.intercalate.go, String.append_assoc]

theorem createPersona_def (creq : PersonaCreationRequest) (env : Env) :
    createPersona creq env =
      match promptIdOf
          (env (createPromptRequest creq.name creq.system_prompt creq.task_prompt)) with
      | none => .error [createPromptRequest creq.name creq.system_prompt creq.task_prompt]
      | some promptId =>
        if promptId != JsVal.jsNull then
          .ok ([createPromptRequest creq.name creq.system_prompt creq.task_prompt,
                createPersonaRequest creq promptId],
            env (createPromptRequest creq.name creq.system_prompt creq.task_prompt),
            some (env (createPersonaRequest creq promptId)))
        else
          .ok ([createPromptRequest creq.name creq.system_prompt creq.task_prompt],
            env (createPromptRequest creq.name creq.system_prompt creq.task_prompt),
            none) := rfl

theorem updatePromptStep_def (ureq : PersonaUpdateRequest) (env : Env) :
    updatePromptStep ureq env =
      match ureq.existingPromptId with
      | some e =>
        (updatePromptRequest e ureq.name ureq.system_prompt ureq.task_prompt,
          env (updatePromptRequest e ureq.name ureq.system_prompt ureq.task_prompt),
          some (JsVal.num e))
      | none =>
        (createPromptRequest ureq.name ureq.system_prompt ureq.task_prompt,
          env (createPromptRequest ureq.name ureq.system_prompt ureq.task_prompt),
          promptIdOf (env (createPromptRequest ureq.name ureq.system_prompt ureq.task_prompt))) :=
  by
  rcases ureq with ⟨i, epid, n, d, s, t, ds, nc, lrf, lmvo⟩
  rcases epid with _ | e <;> rfl

theorem updatePersona_def (ureq : PersonaUpdateRequest) (env : Env) :
    updatePersona ureq env =
      match updatePromptStep ureq env with
      | (promptReq, _, none) => .error [promptReq]
      | (promptReq, promptResponse, some promptId) =>
        if promptResponse.ok && promptId.truthy then
          .ok ([promptReq, updatePersonaRequest ureq promptId], promptResponse,
            some (env (updatePersonaRequest ureq promptId)))
        else
          .ok ([promptReq], promptResponse, none) := rfl

theorem createPersona_trace_mem (creq : PersonaCreationRequest) (env : Env)
    (r : HttpRequest) (hr : r ∈ runTrace (createPersona creq env)) :
    r = createPromptRequest creq.name creq.system_prompt creq.task_prompt ∨
    ∃ pid, r = createPersonaRequest creq pid := by
  rw [createPersona_def] at hr
  rcases hpi : promptIdOf
      (env (createPromptRequest creq.name creq.system_prompt creq.task_prompt))
    with _ | pid <;> rw [hpi] at hr
  · simp [runTrace] at hr
    exact Or.inl hr
  · by_cases hne : pid = JsVal.jsNull
    · simp [runTrace, hne] at hr
      exact Or.inl hr
    · simp [runTrace, hne] at hr
      rcases hr with hr | hr
      · exact Or.inl hr
      · exact Or.inr ⟨pid, hr⟩

theorem updatePersona_trace_mem (ureq : PersonaUpdateRequest) (env : Env)
    (r : HttpRequest) (hr : r ∈ runTrace (updatePersona ureq env)) :
    (∃ e, r = updatePromptRequest e ureq.name ureq.system_prompt ureq.task_prompt) ∨
    r = createPromptRequest ureq.name ureq.system_prompt ureq.task_prompt ∨
    ∃ pid, r = updatePersonaRequest ureq pid := by
  rw [updatePersona_def, updatePromptStep_def] at hr
  rcases he : ureq.existingPromptId with _ | e <;> rw [he] at hr
  · rcases hpi : promptIdOf
        (env (createPromptRequest ureq.name ureq.system_prompt ureq.task_prompt))
      with _ | pid <;> rw [hpi] at hr
    · simp [runTrace] at hr
      exact Or.inr (Or.inl hr)
    · by_cases hb : ((env (createPromptRequest ureq.name ureq.system_prompt
          ureq.task_prompt)).ok && pid.truthy) = true
      · simp [runTrace, hb] at hr
        rcases hr with hr | hr
        · exact Or.inr (Or.inl hr)
        · exact Or.inr (Or.inr ⟨pid, hr⟩)
      · simp only [Bool.not_eq_true] at hb
        simp [runTrace, hb] at hr
        exact Or.inr (Or.inl hr)
  · by_cases hb : ((env (updatePromptRequest e ureq.name ureq.system_prompt
        ureq.task_prompt)).ok && (JsVal.num e).truthy) = true
    · simp [runTrace, hb] at hr
      rcases hr with hr | hr
      · exact Or.inl ⟨e, hr⟩
      · exact Or.inr (Or.inr ⟨JsVal.num e, hr⟩)
    · simp only [Bool.not_eq_true] at hb
      simp [runTrace, hb] at hr
      exact Or.inl ⟨e, hr⟩

end PersonaLib

namespace PersonaLib

/-- C1 counterexample: with a prompt response that is ok and parses as
JSON but has no id field, the persona-create call IS performed (second
element of the pair is some), although no parseable id was obtained. -/
theorem C1_counterexample :
    (envOkId JsVal.undef (createPromptRequest "a" "s" "t")).ok = true ∧
    (envOkId JsVal.undef (createPromptRequest "a" "s" "t")).json? =
      some { idVal := JsVal.undef } ∧
    createPersona reqA (envOkId JsVal.undef) =
      .ok ([createPromptRequest "a" "s" "t", createPersonaRequest reqA JsVal.undef],
        envOkId JsVal.undef (createPromptRequest "a" "s" "t"),
        some (envOkId JsVal.undef (createPersonaRequest reqA JsVal.undef))) := by
  refine ⟨rfl, rfl, ?_⟩
  decide

/-- C1 (amended): createPersona skips the persona-create call and returns
[promptResponse, null] when the prompt call failed; performs it with the
id value read from the parsed body whenever that value is not null (also
when the id field is missing and the value is undefined); skips it when
the id value is null; and rejects without returning a pair when the body
fails to parse. -/
theorem C1_createPersona_guard (req : PersonaCreationRequest) (env : Env) :
    ((env (createPromptRequest req.name req.system_prompt req.task_prompt)).ok = false →
      createPersona req env =
        .ok ([createPromptRequest req.name req.system_prompt req.task_prompt],
          env (createPromptRequest req.name req.system_prompt req.task_prompt), none)) ∧
    (∀ b : JsonBody,
      (env (createPromptRequest req.name req.system_prompt req.task_prompt)).ok = true →
      (env (createPromptRequest req.name req.system_prompt req.task_prompt)).json? = some b →
      b.idVal ≠ JsVal.jsNull →
      createPersona req env =
        .ok ([createPromptRequest req.name req.system_prompt req.task_prompt,
              createPersonaRequest req b.idVal],
          env (createPromptRequest req.name req.system_prompt req.task_prompt),
          some (env (createPersonaRequest req b.idVal)))) ∧
    (∀ b : JsonBody,
      (env (createPromptRequest req.name req.system_prompt req.task_prompt)).ok = true →
      (env (createPromptRequest req.name req.system_prompt req.task_prompt)).json? = some b →
      b.idVal = JsVal.jsNull →
      createPersona req env =
        .ok ([createPromptRequest req.name req.system_prompt req.task_prompt],
          env (createPromptRequest req.name req.system_prompt req.task_prompt), none)) ∧
    ((env (createPromptRequest req.name req.system_prompt req.task_prompt)).ok = true →
      (env (createPromptRequest req.name req.system_prompt req.task_prompt)).json? = none →
      createPersona req env =
        .error [createPromptRequest req.name req.system_prompt req.task_prompt]) := by
  refine ⟨?_, ?_, ?_, ?_⟩
  · intro h
    rw [createPersona_def]
    simp [promptIdOf, h]
  · intro b hok hj hne
    rw [createPersona_def]
    simp [promptIdOf, hok, hj, hne]
  · intro b hok hj heq
    rw [createPersona_def]
    simp [promptIdOf, hok, hj, heq]
  · intro hok hj
    rw [createPersona_def]
    simp [promptIdOf, hok, hj]

/-- C1 witness: the failed-prompt case at concrete inputs. -/
theorem C1_witness :
    createPersona reqA envFailResp =
      .ok ([createPromptRequest "a" "s" "t"],
        envFailResp (createPromptRequest "a" "s" "t"), none) :=
  (C1_createPersona_guard reqA envFailResp).1 (by decide)

end PersonaLib

namespace PersonaLib

/-- C2: a success prompt response with body id 7 makes createPersona
issue exactly one POST to /api/admin/persona, with prompt_ids = [7], and
return both responses as a pair. -/
theorem C2_createPersona_id_seven (req : PersonaCreationRequest) (env : Env)
    (hok : (env (createPromptRequest req.name req.system_prompt req.task_prompt)).ok = true)
    (hjson : (env (createPromptRequest req.name req.system_prompt req.task_prompt)).json? =
      some { idVal := JsVal.num 7 }) :
    createPersona req env =
      .ok ([createPromptRequest req.name req.system_prompt req.task_prompt,
            createPersonaRequest req (JsVal.num 7)],
        env (createPromptRequest req.name req.system_prompt req.task_prompt),
        some (env (createPersonaRequest req (JsVal.num 7)))) ∧
    (createPersonaRequest req (JsVal.num 7)).method = Method.POST ∧
    (createPersonaRequest req (JsVal.num 7)).path = "/api/admin/persona" ∧
    (buildPersonaAPIBody req (JsVal.num 7)).prompt_ids = [JsVal.num 7] ∧
    List.countP
      (fun r => decide (r.method = Method.POST ∧ r.path = "/api/admin/persona"))
      (runTrace (createPersona req env)) = 1 := by
  have hmain : createPersona req env =
      .ok ([createPromptRequest req.name req.system_prompt req.task_prompt,
            createPersonaRequest req (JsVal.num 7)],
        env (createPromptRequest req.name req.system_prompt req.task_prompt),
        some (env (createPersonaRequest req (JsVal.num 7)))) := by
    rw [createPersona_def]
    simp [promptIdOf, hok, hjson]
  refine ⟨hmain, rfl, rfl, rfl, ?_⟩
  rw [hmain]
  simp [runTrace, List.countP, List.countP.go, createPromptRequest, createPersonaRequest]

/-- C2 witness at concrete inputs. -/
theorem C2_witness :
    createPersona reqA (envOkId (JsVal.num 7)) =
      .ok ([createPromptRequest "a" "s" "t", createPersonaRequest reqA (JsVal.num 7)],
        envOkId (JsVal.num 7) (createPromptRequest "a" "s" "t"),
        some (envOkId (JsVal.num 7) (createPersonaRequest reqA (JsVal.num 7)))) ∧
    List.countP
      (fun r => decide (r.method = Method.POST ∧ r.path = "/api/admin/persona"))
      (runTrace (createPersona reqA (envOkId (JsVal.num 7)))) = 1 :=
  ⟨(C2_createPersona_id_seven reqA (envOkId (JsVal.num 7)) rfl rfl).1,
   (C2_createPersona_id_seven reqA (envOkId (JsVal.num 7)) rfl rfl).2.2.2.2⟩

end PersonaLib

namespace PersonaLib

/-- C3 counterexample: with existingPromptId = 0 and a prompt-update call
that succeeds, the persona-update is NOT issued (second element none),
refuting the unconditional success clause of the claim. -/
theorem C3_counterexample :
    ureq0.existingPromptId = some 0 ∧
    (envOkId (JsVal.num 9) (updatePromptRequest 0 "a" "s" "t")).ok = true ∧
    updatePersona ureq0 (envOkId (JsVal.num 9)) =
      .ok ([updatePromptRequest 0 "a" "s" "t"],
        envOkId (JsVal.num 9) (updatePromptRequest 0 "a" "s" "t"), none) := by
  refine ⟨rfl, rfl, ?_⟩
  decide

/-- C3 (amended): with existingPromptId present, updatePersona issues the
prompt-update PATCH to /api/prompt/existingPromptId and never a
prompt-create (no POST at all), and sets promptId = existingPromptId
regardless of the call outcome; if the call succeeds and existingPromptId
is nonzero, the persona-update is issued with
prompt_ids = [existingPromptId]; if existingPromptId = 0 the
persona-update is skipped even on success. -/
theorem C3_updatePersona_existing_prompt (req : PersonaUpdateRequest) (env : Env)
    (e : Int) (he : req.existingPromptId = some e) :
    updatePromptStep req env =
      (updatePromptRequest e req.name req.system_prompt req.task_prompt,
        env (updatePromptRequest e req.name req.system_prompt req.task_prompt),
        some (JsVal.num e)) ∧
    (updatePromptRequest e req.name req.system_prompt req.task_prompt).method =
      Method.PATCH ∧
    (updatePromptRequest e req.name req.system_prompt req.task_prompt).path =
      "/api/prompt/" ++ toString e ∧
    (∀ r ∈ runTrace (updatePersona req env), r.method ≠ Method.POST) ∧
    ((env (updatePromptRequest e req.name req.system_prompt req.task_prompt)).ok = true →
      e ≠ 0 →
      updatePersona req env =
        .ok ([updatePromptRequest e req.name req.system_prompt req.task_prompt,
              updatePersonaRequest req (JsVal.num e)],
          env (updatePromptRequest e req.name req.system_prompt req.task_prompt),
          some (env (updatePersonaRequest req (JsVal.num e)))) ∧
      (buildPersonaAPIBody req.toCreationRequest (JsVal.num e)).prompt_ids =
        [JsVal.num e]) ∧
    ((env (updatePromptRequest e req.name req.system_prompt req.task_prompt)).ok = true →
      e = 0 →
      updatePersona req env =
        .ok ([updatePromptRequest e req.name req.system_prompt req.task_prompt],
          env (updatePromptRequest e req.name req.system_prompt req.task_prompt),
          none)) := by
  have hstep : updatePromptStep req env =
      (updatePromptRequest e req.name req.system_prompt req.task_prompt,
        env (updatePromptRequest e req.name req.system_prompt req.task_prompt),
        some (JsVal.num e)) := by
    rw [updatePromptStep_def, he]
  refine ⟨hstep, rfl, rfl, ?_, ?_, ?_⟩
  · intro r hr
    rw [updatePersona_def, hstep] at hr
    by_cases hb : ((env (updatePromptRequest e req.name req.system_prompt
        req.task_prompt)).ok && (JsVal.num e).truthy) = true
    · simp [runTrace, hb] at hr
      rcases hr with rfl | rfl <;> exact fun hx => Method.noConfusion hx
    · simp only [Bool.not_eq_true] at hb
      simp [runTrace, hb] at hr
      subst hr
      exact fun hx => Method.noConfusion hx
  · intro hok hne
    have hb : ((env (updatePromptRequest e req.name req.system_prompt
        req.task_prompt)).ok && (JsVal.num e).truthy) = true := by
      simp [hok, JsVal.truthy, hne]
    rw [updatePersona_def, hstep]
    simp [hb, buildPersonaAPIBody]
  · intro hok he0
    subst he0
    have hb : ((env (updatePromptRequest 0 req.name req.system_prompt
        req.task_prompt)).ok && (JsVal.num 0).truthy) = false := by
      simp [JsVal.truthy]
    rw [updatePersona_def, hstep]
    simp [hb]

/-- C3 witness: the nonzero success case at concrete inputs. -/
theorem C3_witness :
    updatePersona ureq42 (envOkId (JsVal.num 1)) =
      .ok ([updatePromptRequest 42 "a" "s" "t",
            updatePersonaRequest ureq42 (JsVal.num 42)],
        envOkId (JsVal.num 1) (updatePromptRequest 42 "a" "s" "t"),
        some (envOkId (JsVal.num 1) (updatePersonaRequest ureq42 (JsVal.num 42)))) ∧
    (buildPersonaAPIBody ureq42.toCreationRequest (JsVal.num 42)).prompt_ids =
      [JsVal.num 42] :=
  (C3_updatePersona_existing_prompt ureq42 (envOkId (JsVal.num 1)) 42 rfl).2.2.2.2.1
    rfl (by decide)

end PersonaLib

namespace PersonaLib

/-- C4: with existingPromptId absent, updatePersona issues the
prompt-create call; promptId is the id value read from the parsed JSON
body when the call succeeded, null when it failed; in particular a body
with id 5 leads to a persona-update with prompt_ids = [5]. -/
theorem C4_updatePersona_created_prompt (req : PersonaUpdateRequest) (env : Env)
    (he : req.existingPromptId = none) :
    ((env (createPromptRequest req.name req.system_prompt req.task_prompt)).ok = false →
      updatePromptStep req env =
        (createPromptRequest req.name req.system_prompt req.task_prompt,
          env (createPromptRequest req.name req.system_prompt req.task_prompt),
          some JsVal.jsNull)) ∧
    (∀ b : JsonBody,
      (env (createPromptRequest req.name req.system_prompt req.task_prompt)).ok = true →
      (env (createPromptRequest req.name req.system_prompt req.task_prompt)).json? = some b →
      updatePromptStep req env =
        (createPromptRequest req.name req.system_prompt req.task_prompt,
          env (createPromptRequest req.name req.system_prompt req.task_prompt),
          some b.idVal)) ∧
    ((env (createPromptRequest req.name req.system_prompt req.task_prompt)).ok = true →
      (env (createPromptRequest req.name req.system_prompt req.task_prompt)).json? =
        some { idVal := JsVal.num 5 } →
      updatePersona req env =
        .ok ([createPromptRequest req.name req.system_prompt req.task_prompt,
              updatePersonaRequest req (JsVal.num 5)],
          env (createPromptRequest req.name req.system_prompt req.task_prompt),
          some (env (updatePersonaRequest req (JsVal.num 5)))) ∧
      (buildPersonaAPIBody req.toCreationRequest (JsVal.num 5)).prompt_ids =
        [JsVal.num 5]) := by
  refine ⟨?_, ?_, ?_⟩
  · intro h
    rw [updatePromptStep_def, he]
    simp [promptIdOf, h]
  · intro b hok hj
    rw [updatePromptStep_def, he]
    simp [promptIdOf, hok, hj]
  · intro hok hj
    have hstep : updatePromptStep req env =
        (createPromptRequest req.name req.system_prompt req.task_prompt,
          env (createPromptRequest req.name req.system_prompt req.task_prompt),
          some (JsVal.num 5)) := by
      rw [updatePromptStep_def, he]
      simp [promptIdOf, hok, hj]
    rw [updatePersona_def, hstep]
    simp [hok, JsVal.truthy, buildPersonaAPIBody]

/-- C4 witness: the id 5 case at concrete inputs. -/
theorem C4_witness :
    updatePersona ureqNone (envOkId (JsVal.num 5)) =
      .ok ([createPromptRequest "a" "s" "t",
            updatePersonaRequest ureqNone (JsVal.num 5)],
        envOkId (JsVal.num 5) (createPromptRequest "a" "s" "t"),
        some (envOkId (JsVal.num 5) (updatePersonaRequest ureqNone (JsVal.num 5)))) ∧
    (buildPersonaAPIBody ureqNone.toCreationRequest (JsVal.num 5)).prompt_ids =
      [JsVal.num 5] :=
  (C4_updatePersona_created_prompt ureqNone (envOkId (JsVal.num 5)) rfl).2.2 rfl rfl

/-- C5: updatePersona issues the persona-update PATCH to
/api/admin/persona/id exactly when the prompt-step response is ok and
promptId is truthy; 0 is falsy, so promptId 0 skips the call and the
second element is null; the pair [promptResponse, personaResponseOrNull]
is returned either way. -/
theorem C5_updatePersona_guard (req : PersonaUpdateRequest) (env : Env)
    (promptReq : HttpRequest) (promptResponse : Response) (promptId : JsVal)
    (h : updatePromptStep req env = (promptReq, promptResponse, some promptId)) :
    ((promptResponse.ok && promptId.truthy) = true →
      updatePersona req env =
        .ok ([promptReq, updatePersonaRequest req promptId], promptResponse,
          some (env (updatePersonaRequest req promptId)))) ∧
    ((promptResponse.ok && promptId.truthy) = false →
      updatePersona req env = .ok ([promptReq], promptResponse, none)) ∧
    JsVal.truthy (JsVal.num 0) = false ∧
    (updatePersonaRequest req promptId).method = Method.PATCH ∧
    (updatePersonaRequest req promptId).path =
      "/api/admin/persona/" ++ toString req.id := by
  refine ⟨?_, ?_, rfl, rfl, rfl⟩
  · intro hb
    rw [updatePersona_def, h]
    simp [hb]
  · intro hb
    rw [updatePersona_def, h]
    simp [hb]

/-- C5 witness: the failing-response case at concrete inputs. -/
theorem C5_witness :
    updatePersona ureq42 envFailResp =
      .ok ([updatePromptRequest 42 "a" "s" "t"],
        envFailResp (updatePromptRequest 42 "a" "s" "t"), none) :=
  (C5_updatePersona_guard ureq42 envFailResp
    (updatePromptRequest 42 "a" "s" "t")
    (envFailResp (updatePromptRequest 42 "a" "s" "t"))
    (JsVal.num 42) (by rw [updatePromptStep_def]; rfl) ).2.1 (by decide)

end PersonaLib

namespace PersonaLib

/-- C6: with an ok prompt response whose parsed body has no id field, the
id value read is undefined, which differs from null, so createPersona
still issues the persona-create call with prompt_ids = [undefined];
updatePersona in its create branch guards with truthiness and skips the
persona-update in the same situation. -/
theorem C6_undefined_id_asymmetry (creq : PersonaCreationRequest)
    (ureq : PersonaUpdateRequest) (env envU : Env)
    (hc1 : (env (createPromptRequest creq.name creq.system_prompt creq.task_prompt)).ok = true)
    (hc2 : (env (createPromptRequest creq.name creq.system_prompt creq.task_prompt)).json? =
      some { idVal := JsVal.undef })
    (hu0 : ureq.existingPromptId = none)
    (hu1 : (envU (createPromptRequest ureq.name ureq.system_prompt ureq.task_prompt)).ok = true)
    (hu2 : (envU (createPromptRequest ureq.name ureq.system_prompt ureq.task_prompt)).json? =
      some { idVal := JsVal.undef }) :
    JsVal.undef ≠ JsVal.jsNull ∧
    createPersona creq env =
      .ok ([createPromptRequest creq.name creq.system_prompt creq.task_prompt,
            createPersonaRequest creq JsVal.undef],
        env (createPromptRequest creq.name creq.system_prompt creq.task_prompt),
        some (env (createPersonaRequest creq JsVal.undef))) ∧
    (buildPersonaAPIBody creq JsVal.undef).prompt_ids = [JsVal.undef] ∧
    JsVal.truthy JsVal.undef = false ∧
    updatePersona ureq envU =
      .ok ([createPromptRequest ureq.name ureq.system_prompt ureq.task_prompt],
        envU (createPromptRequest ureq.name ureq.system_prompt ureq.task_prompt),
        none) := by
  refine ⟨by decide, ?_, rfl, rfl, ?_⟩
  · rw [createPersona_def]
    simp [promptIdOf, hc1, hc2]
  · have hstep : updatePromptStep ureq envU =
        (createPromptRequest ureq.name ureq.system_prompt ureq.task_prompt,
          envU (createPromptRequest ureq.name ureq.system_prompt ureq.task_prompt),
          some JsVal.undef) := by
      rw [updatePromptStep_def, hu0]
      simp [promptIdOf, hu1, hu2]
    rw [updatePersona_def, hstep]
    simp [JsVal.truthy]

/-- C6 witness: both operations at concrete inputs. -/
theorem C6_witness :
    createPersona reqA (envOkId JsVal.undef) =
      .ok ([createPromptRequest "a" "s" "t", createPersonaRequest reqA JsVal.undef],
        envOkId JsVal.undef (createPromptRequest "a" "s" "t"),
        some (envOkId JsVal.undef (createPersonaRequest reqA JsVal.undef))) ∧
    updatePersona ureqNone (envOkId JsVal.undef) =
      .ok ([createPromptRequest "a" "s" "t"],
        envOkId JsVal.undef (createPromptRequest "a" "s" "t"), none) :=
  ⟨(C6_undefined_id_asymmetry reqA ureqNone (envOkId JsVal.undef)
      (envOkId JsVal.undef) rfl rfl rfl rfl rfl).2.1,
   (C6_undefined_id_asymmetry reqA ureqNone (envOkId JsVal.undef)
      (envOkId JsVal.undef) rfl rfl rfl rfl rfl).2.2.2.2⟩

/-- C7: every persona body placed in a request by either operation has a
one-element prompt_ids, and every prompt body placed in a request by
either operation has the name derived from the persona name, the
description derived from the persona name, and shared = true. -/
theorem C7_prompt_persona_invariants (creq : PersonaCreationRequest)
    (ureq : PersonaUpdateRequest) (env envU : Env) :
    (∀ r ∈ runTrace (createPersona creq env), ∀ b : PromptBody,
      r.body? = some (.promptB b) →
      b.name = promptNameFromPersonaName creq.name ∧
      b.description = "Default prompt for persona " ++ creq.name ∧
      b.shared = true) ∧
    (∀ r ∈ runTrace (createPersona creq env), ∀ pb : PersonaAPIBody,
      r.body? = some (.personaB pb) → pb.prompt_ids.length = 1) ∧
    (∀ r ∈ runTrace (updatePersona ureq envU), ∀ b : PromptBody,
      r.body? = some (.promptB b) →
      b.name = promptNameFromPersonaName ureq.name ∧
      b.description = "Default prompt for persona " ++ ureq.name ∧
      b.shared = true) ∧
    (∀ r ∈ runTrace (updatePersona ureq envU), ∀ pb : PersonaAPIBody,
      r.body? = some (.personaB pb) → pb.prompt_ids.length = 1) := by
  refine ⟨?_, ?_, ?_, ?_⟩
  · intro r hr b hb
    rcases createPersona_trace_mem creq env r hr with rfl | ⟨pid, rfl⟩
    · simp [createPromptRequest] at hb
      subst hb
      exact ⟨rfl, rfl, rfl⟩
    · simp [createPersonaRequest] at hb
  · intro r hr pb hb
    rcases createPersona_trace_mem creq env r hr with rfl | ⟨pid, rfl⟩
    · simp [createPromptRequest] at hb
    · simp [createPersonaRequest] at hb
      subst hb
      rfl
  · intro r hr b hb
    rcases updatePersona_trace_mem ureq envU r hr with ⟨e, rfl⟩ | rfl | ⟨pid, rfl⟩
    · simp [updatePromptRequest] at hb
      subst hb
      exact ⟨rfl, rfl, rfl⟩
    · simp [createPromptRequest] at hb
      subst hb
      exact ⟨rfl, rfl, rfl⟩
    · simp [updatePersonaRequest] at hb
  · intro r hr pb hb
    rcases updatePersona_trace_mem ureq envU r hr with ⟨e, rfl⟩ | rfl | ⟨pid, rfl⟩
    · simp [updatePromptRequest] at hb
    · simp [createPromptRequest] at hb
    · simp [updatePersonaRequest] at hb
      subst hb
      rfl

/-- C7 witness: the prompt body of the request issued by createPersona at
concrete inputs. -/
theorem C7_witness :
    (promptBodyFor "a" "s" "t").name = promptNameFromPersonaName "a" ∧
    (promptBodyFor "a" "s" "t").description = "Default prompt for persona " ++ "a" ∧
    (promptBodyFor "a" "s" "t").shared = true :=
  (C7_prompt_persona_invariants reqA ureq42 envFailResp envFailResp).1
    (createPromptRequest "a" "s" "t") (by decide) (promptBodyFor "a" "s" "t") rfl

end PersonaLib

namespace PersonaLib

/-- C8: buildFinalPrompt issues a GET to /api/persona/utils/prompt-explorer
whose query string is the three keys system_prompt, task_prompt,
retrieval_disabled in that order, each key and value individually
percent-encoded and the pairs joined with ampersands, and returns the raw
response; concretely a space encodes as %20 and a slash as %2F. -/
theorem C8_buildFinalPrompt_query (sys task : String) (rd : Bool) (env : Env) :
    buildFinalPrompt sys task rd env =
      ([buildFinalPromptRequest sys task rd], env (buildFinalPromptRequest sys task rd)) ∧
    (buildFinalPromptRequest sys task rd).method = Method.GET ∧
    (buildFinalPromptRequest sys task rd).body? = none ∧
    (buildFinalPromptRequest sys task rd).path =
      "/api/persona/utils/prompt-explorer?" ++
        (encodeURIComponent "system_prompt" ++ "=" ++ encodeURIComponent sys ++ "&" ++
         encodeURIComponent "task_prompt" ++ "=" ++ encodeURIComponent task ++ "&" ++
         encodeURIComponent "retrieval_disabled" ++ "=" ++
         encodeURIComponent (if rd then "true" else "false")) ∧
    encodeURIComponent "sys a" = "sys%20a" ∧
    encodeURIComponent "task/b" = "task%2Fb" ∧
    buildFinalPromptQuery "sys a" "task/b" true =
      "system_prompt=sys%20a&task_prompt=task%2Fb&retrieval_disabled=true" := by
  refine ⟨rfl, rfl, rfl, ?_, by decide, by decide, by decide⟩
  show "/api/persona/utils/prompt-explorer?" ++ buildFinalPromptQuery sys task rd = _
  rw [buildFinalPromptQuery]
  simp only [List.map]
  rw [intercalate_amp_three]
  simp [String.append_assoc]

/-- C9: deletePersona issues exactly one DELETE to
/api/admin/persona/personaId with no body and no JSON header, performs no
other call, and returns the response unmodified; at 99 the path is
/api/admin/persona/99. -/
theorem C9_deletePersona (personaId : Int) (env : Env) :
    deletePersona personaId env =
      ([deletePersonaRequest personaId], env (deletePersonaRequest personaId)) ∧
    (deletePersona personaId env).1.length = 1 ∧
    (deletePersonaRequest personaId).method = Method.DELETE ∧
    (deletePersonaRequest personaId).body? = none ∧
    (deletePersonaRequest personaId).jsonContentType = false ∧
    (deletePersonaRequest personaId).path = "/api/admin/persona/" ++ toString personaId ∧
    (deletePersonaRequest 99).path = "/api/admin/persona/99" :=
  ⟨rfl, rfl, rfl, rfl, rfl, rfl, by decide⟩

/-- C10: when the prompt response is ok but its body fails to parse as
JSON, createPersona, and updatePersona with existingPromptId absent, do
not return a pair: the run ends in the rejection case with only the
prompt request issued, so the persona call is never reached. -/
theorem C10_json_rejection (creq : PersonaCreationRequest)
    (ureq : PersonaUpdateRequest) (env envU : Env)
    (hc1 : (env (createPromptRequest creq.name creq.system_prompt creq.task_prompt)).ok = true)
    (hc2 : (env (createPromptRequest creq.name creq.system_prompt creq.task_prompt)).json? = none)
    (hu0 : ureq.existingPromptId = none)
    (hu1 : (envU (createPromptRequest ureq.name ureq.system_prompt ureq.task_prompt)).ok = true)
    (hu2 : (envU (createPromptRequest ureq.name ureq.system_prompt ureq.task_prompt)).json? = none) :
    createPersona creq env =
      .error [createPromptRequest creq.name creq.system_prompt creq.task_prompt] ∧
    updatePersona ureq envU =
      .error [createPromptRequest ureq.name ureq.system_prompt ureq.task_prompt] := by
  constructor
  · rw [createPersona_def]
    simp [promptIdOf, hc1, hc2]
  · have hstep : updatePromptStep ureq envU =
        (createPromptRequest ureq.name ureq.system_prompt ureq.task_prompt,
          envU (createPromptRequest ureq.name ureq.system_prompt ureq.task_prompt),
          none) := by
      rw [updatePromptStep_def, hu0]
      simp [promptIdOf, hu1, hu2]
    rw [updatePersona_def, hstep]

/-- C10 witness: both operations at concrete inputs. -/
theorem C10_witness :
    createPersona reqA envOkNoJson = .error [createPromptRequest "a" "s" "t"] ∧
    updatePersona ureqNone envOkNoJson = .error [createPromptRequest "a" "s" "t"] :=
  C10_json_rejection reqA ureqNone envOkNoJson envOkNoJson rfl rfl rfl rfl rfl

end PersonaLib
